import Mathlib

/-!
Shallow embedding of the client-side resilience layer of the chat
application: the error classifier and retry policy
(`frontend/src/utils/telemetry.ts`), the resilient request executor
(`frontend/src/utils/apiWithRetry.ts`), the progressive feedback
controller (`frontend/src/components/common/ProgressiveLoader.tsx`),
the question-input guards
(`frontend/src/components/QuestionInput/QuestionInput.tsx` and its
variant), and the conversation-history API helpers.

Strings are modelled by Lean `String`; JavaScript `toLowerCase` is
modelled by mapping `Char.toLower` (all strings involved are ASCII),
and `String.prototype.includes` by list-infix containment.
-/

namespace Spec2Proof

/-- Lowercasing of a string, character by character, modelling
JavaScript `toLowerCase` on the ASCII strings that occur here. -/
def lowerStr (s : String) : String :=
  ⟨s.data.map Char.toLower⟩

/-- Boolean prefix test on character lists. -/
def strPrefixOf : List Char → List Char → Bool
  | [], _ => true
  | _ :: _, [] => false
  | a :: as, b :: bs => a == b && strPrefixOf as bs

/-- Boolean contiguous-substring test on character lists. -/
def strInfixOf : List Char → List Char → Bool
  | pat, [] => strPrefixOf pat []
  | pat, c :: rest => strPrefixOf pat (c :: rest) || strInfixOf pat rest

/-- The function `includes s pat` models JavaScript `s.includes(pat)`:
`pat` occurs as a contiguous substring of `s`. -/
def includes (s pat : String) : Bool :=
  strInfixOf pat.data s.data

namespace Telemetry

/-- The six error categories of `ErrorTelemetryData['category']`. -/
inductive Category where
  | network
  | timeout
  | api
  | streaming
  | auth
  | unknown
deriving DecidableEq, Repr

/-- The four severities of `ErrorTelemetryData['severity']`. -/
inductive Severity where
  | low
  | medium
  | high
  | critical
deriving DecidableEq, Repr

/-- Transcription of `TelemetryService.categorizeError`, taken from
`telemetry.ts` lines 98-118: the message is lowercased once and the
category is decided by an ordered chain of substring tests. -/
def categorizeError (message : String) : Category :=
  let m := lowerStr message
  if includes m "network" || includes m "fetch" then Category.network
  else if includes m "timeout" || includes m "aborted" then Category.timeout
  else if includes m "unauthorized" || includes m "forbidden" then Category.auth
  else if includes m "stream" || includes m "reader" then Category.streaming
  else if includes m "api" || includes m "server" then Category.api
  else Category.unknown

/-- Transcription of `TelemetryService.categorizeErrorSeverity`, taken from
`telemetry.ts` lines 120-136: recomputes the category and maps it
through a fixed switch (default branch gives `medium`). -/
def categorizeErrorSeverity (message : String) : Severity :=
  match categorizeError message with
  | Category.auth => Severity.critical
  | Category.api => Severity.high
  | Category.timeout => Severity.medium
  | Category.streaming => Severity.medium
  | Category.network => Severity.low
  | Category.unknown => Severity.medium

/-- The `RetryableError` record of `telemetry.ts` lines 19-23. -/
structure RetryableError where
  isRetryable : Bool
  retryAfter : Option Nat := none
  maxRetries : Option Nat := none
deriving DecidableEq, Repr

/-- Transcription of `TelemetryService.isRetryableError`, taken from
`telemetry.ts` lines 138-158. -/
def isRetryableError (message : String) : RetryableError :=
  let category := categorizeError message
  let m := lowerStr message
  match category with
  | Category.network => { isRetryable := true, retryAfter := some 1000, maxRetries := some 3 }
  | Category.timeout => { isRetryable := true, retryAfter := some 1000, maxRetries := some 3 }
  | Category.api =>
      if includes m "500" || includes m "502" || includes m "503" then
        { isRetryable := true, retryAfter := some 2000, maxRetries := some 2 }
      else
        { isRetryable := false }
  | Category.streaming => { isRetryable := true, retryAfter := some 500, maxRetries := some 2 }
  | Category.auth => { isRetryable := false }
  | Category.unknown => { isRetryable := false }

/-- Model of `TelemetryService.reportError`, control-flow content only
(`telemetry.ts` lines 51-96): the POST of the telemetry payload is
wrapped in a try/catch whose catch branch merely logs, so the method
completes normally whether or not the telemetry transport succeeds.
`telemetryOk` says whether the inner `fetch` succeeded. -/
def reportError (telemetryOk : Bool) : Except String Unit :=
  match (if telemetryOk then Except.ok () else Except.error "Failed to send error telemetry") with
  | Except.ok _ => Except.ok ()
  | Except.error _ => Except.ok ()

/-- The spec's category-derivation rule restated as an ordered rule
list over the message and the name: first rule whose pattern occurs
(case-insensitively) in the message or in the name wins, else
`unknown`. Used to compare the claimed derivation, which consults
"the error's message/name", with the source's, which consults only
the message. -/
def specRules : List (List String × Category) :=
  [(["network", "fetch"], Category.network),
   (["timeout", "aborted"], Category.timeout),
   (["unauthorized", "forbidden"], Category.auth),
   (["stream", "reader"], Category.streaming),
   (["api", "server"], Category.api)]

/-- Category derivation as the claim states it: case-insensitive
substring match on the error's message/name, first match wins. -/
def specCategorizeMsgName (message name : String) : Category :=
  match specRules.find? (fun r =>
      r.1.any (fun pat => includes (lowerStr message) pat || includes (lowerStr name) pat)) with
  | some r => r.2
  | none => Category.unknown

/-- Category derivation restricted to the message alone, as the
source implements it, stated through the spec's rule-list form. -/
def specCategorizeMsg (message : String) : Category :=
  match specRules.find? (fun r => r.1.any (fun pat => includes (lowerStr message) pat)) with
  | some r => r.2
  | none => Category.unknown

/-- The spec's fixed severity table as a total function of the
category. -/
def severityTable : Category → Severity
  | Category.auth => Severity.critical
  | Category.api => Severity.high
  | Category.timeout => Severity.medium
  | Category.streaming => Severity.medium
  | Category.network => Severity.low
  | Category.unknown => Severity.medium

end Telemetry

/-- An error object as far as the resilience layer consults it:
`name`, `message`, and the optional HTTP `status` that `ApiError`
carries. -/
structure ErrorObj where
  name : String
  message : String
  status : Option Nat := none
deriving DecidableEq, Repr

namespace ApiWithRetry

/-- Record `RetryOptions` with the defaults of
`ApiWithRetry.defaultRetryOptions` (`apiWithRetry.ts` lines 50-56). -/
structure RetryOptions where
  maxRetries : Nat := 3
  baseDelay : Nat := 1000
  maxDelay : Nat := 10000
  backoffFactor : Nat := 2
  timeoutMs : Nat := 30000
deriving DecidableEq, Repr

/-- The default options record, all fields defaulted. -/
def defaultRetryOptions : RetryOptions := {}

/-- Transcription of `ApiWithRetry.calculateDelay` (`apiWithRetry.ts` lines 155-158):
exponential backoff clamped at `maxDelay`. -/
def calculateDelay (attempt : Nat) (o : RetryOptions) : Nat :=
  min (o.baseDelay * o.backoffFactor ^ attempt) o.maxDelay

/-- Transcription of `ApiWithRetry.shouldRetry` (`apiWithRetry.ts` lines 148-153). -/
def shouldRetry (status attempt maxRetries : Nat) : Bool :=
  if maxRetries ≤ attempt then false
  else decide (500 ≤ status) || status == 408 || status == 429

/-- The delay selection `retryInfo.retryAfter || this.calculateDelay(...)`
of `apiWithRetry.ts` line 110, with JavaScript falsiness: an absent or
zero `retryAfter` falls back to the backoff value. -/
def jsOrDelay (retryAfter : Option Nat) (attempt : Nat) (o : RetryOptions) : Nat :=
  match retryAfter with
  | some v => if v == 0 then calculateDelay attempt o else v
  | none => calculateDelay attempt o

/-- A raw failure thrown by the browser `fetch` inside
`fetchWithTimeout`, before the executor rewraps it. -/
structure RawError where
  name : String
  message : String
  isTypeError : Bool := false
deriving DecidableEq, Repr

/-- The error rewrapping of `ApiWithRetry.fetchWithTimeout`
(`apiWithRetry.ts` lines 135-142): an `AbortError` becomes a
`TimeoutError` with an interpolated message, a `TypeError` whose
message mentions fetch becomes a `NetworkError`, anything else is
rethrown unchanged. -/
def fetchWithTimeoutMap (url : String) (timeoutMs : Nat) (e : RawError) : ErrorObj :=
  if e.name == "AbortError" then
    { name := ("TimeoutError"),
      message := "Request to " ++ url ++ " timed out after " ++ toString timeoutMs ++ "ms" }
  else if e.isTypeError && includes e.message ("fetch") then
    { name := ("NetworkError"), message := "Network error when requesting " ++ url }
  else
    { name := e.name, message := e.message }

/-- The message of the `ApiError` built for a non-2xx response
(`apiWithRetry.ts` line 75). -/
def apiErrorMessage (status : Nat) (statusText : String) : String :=
  "HTTP " ++ toString status ++ ": " ++ statusText

/-- What one attempt of the underlying transport yields: a 2xx
response, a non-2xx response, or a thrown failure. -/
inductive AttemptResult where
  | success (status : Nat)
  | httpError (status : Nat) (statusText : String)
  | raised (e : RawError)
deriving DecidableEq, Repr

/-- Whether the attempt result is a failure (anything but a 2xx
response). -/
def AttemptResult.isFailure : AttemptResult → Bool
  | AttemptResult.success _ => false
  | AttemptResult.httpError _ _ => true
  | AttemptResult.raised _ => true

/-- Observable side effects of the executor: a telemetry report and a
waited retry delay. -/
inductive ExecEvent where
  | telemetryReport (message : String)
  | waited (ms : Nat)
deriving DecidableEq, Repr

/-- Outcome of one iteration of the retry loop. -/
inductive StepDecision where
  | done (status : Nat)
  | retryWith (err : ErrorObj)
  | failWith (err : ErrorObj)
deriving DecidableEq, Repr

/-- One iteration of the `for` loop of `ApiWithRetry.fetch`
(`apiWithRetry.ts` lines 68-115), transcribed with its exact control
flow: a non-2xx response is reported and checked against
`shouldRetry`; if declined it is thrown, lands in the `catch` of the
same `try`, is reported a second time, and is then checked against
`telemetryService.isRetryableError` with the attempt bound
`options.maxRetries`; a thrown failure is reported once and checked
the same way. -/
def fetchStep (url : String) (o : RetryOptions) (attempt : Nat) (r : AttemptResult) :
    List ExecEvent × StepDecision :=
  match r with
  | AttemptResult.success s => ([], StepDecision.done s)
  | AttemptResult.httpError s st =>
      let err : ErrorObj := { name := ("ApiError"), message := apiErrorMessage s st, status := some s }
      if shouldRetry s attempt o.maxRetries then
        ([ExecEvent.telemetryReport err.message, ExecEvent.waited (calculateDelay attempt o)],
         StepDecision.retryWith err)
      else
        let ri := Telemetry.isRetryableError err.message
        if ri.isRetryable && decide (attempt < o.maxRetries) then
          ([ExecEvent.telemetryReport err.message, ExecEvent.telemetryReport err.message,
            ExecEvent.waited (jsOrDelay ri.retryAfter attempt o)],
           StepDecision.retryWith err)
        else
          ([ExecEvent.telemetryReport err.message, ExecEvent.telemetryReport err.message],
           StepDecision.failWith err)
  | AttemptResult.raised e =>
      let err := fetchWithTimeoutMap url o.timeoutMs e
      let ri := Telemetry.isRetryableError err.message
      if ri.isRetryable && decide (attempt < o.maxRetries) then
        ([ExecEvent.telemetryReport err.message,
          ExecEvent.waited (jsOrDelay ri.retryAfter attempt o)],
         StepDecision.retryWith err)
      else
        ([ExecEvent.telemetryReport err.message], StepDecision.failWith err)

/-- The retry loop of `ApiWithRetry.fetch`, fuel-recursive over the
remaining iterations (`attempt <= maxRetries` gives `maxRetries + 1`
of them); `last` threads `lastError` for the unreachable fall-through
throw after the loop. -/
def fetchAux (url : String) (o : RetryOptions) (oracle : Nat → AttemptResult) :
    Nat → Nat → Option ErrorObj → List ExecEvent × Except ErrorObj Nat
  | 0, _, last => ([], Except.error (last.getD { name := "", message := "" }))
  | Nat.succ fuel, attempt, _ =>
      let step := fetchStep url o attempt (oracle attempt)
      match step.2 with
      | StepDecision.done s => (step.1, Except.ok s)
      | StepDecision.failWith err => (step.1, Except.error err)
      | StepDecision.retryWith err =>
          let rest := fetchAux url o oracle fuel (attempt + 1) (some err)
          (step.1 ++ rest.1, rest.2)

/-- Model of `ApiWithRetry.fetch` on a simulated transport `oracle` giving each
attempt its outcome: the event trace plus the returned status or the
thrown error. -/
def ApiFetch (url : String) (o : RetryOptions) (oracle : Nat → AttemptResult) :
    List ExecEvent × Except ErrorObj Nat :=
  fetchAux url o oracle (o.maxRetries + 1) 0 none

/-- Whether an event is a telemetry report. -/
def isReport : ExecEvent → Bool
  | ExecEvent.telemetryReport _ => true
  | ExecEvent.waited _ => false

/-- Number of telemetry reports in a trace. -/
def reportCount (evs : List ExecEvent) : Nat :=
  (evs.filter isReport).length

/-- Number of waited retry delays in a trace. -/
def waitCount (evs : List ExecEvent) : Nat :=
  (evs.filter (fun e => !isReport e)).length

/-- The retry condition of the `catch` branch
(`apiWithRetry.ts` line 109): `retryInfo.isRetryable && attempt <
finalRetryOptions.maxRetries`. -/
def catchRetryCond (message : String) (attempt : Nat) (o : RetryOptions) : Bool :=
  (Telemetry.isRetryableError message).isRetryable && decide (attempt < o.maxRetries)

/-- A transport that always yields HTTP 400 Bad Request. -/
def oracle400 : Nat → AttemptResult :=
  fun _ => AttemptResult.httpError 400 ("Bad Request")

end ApiWithRetry

namespace HistoryApi

/-- Outcome of the single direct `fetch` a history helper performs. -/
inductive FetchOutcome where
  | response (ok : Bool) (status : Nat)
  | rejected
deriving DecidableEq, Repr

/-- The part of a `Response` the history helpers surface. -/
structure RespModel where
  ok : Bool
  status : Nat
deriving DecidableEq, Repr

/-- Transcription of `historyUpdate` (history API module, lines 197-221): one direct
`fetch`; the response, 2xx or not, is returned unchanged; a rejected
fetch is caught and replaced by a synthesized `{ok: false, status:
500}` response. No classification, no telemetry, no retry. -/
def historyUpdate : FetchOutcome → RespModel × List ApiWithRetry.ExecEvent
  | FetchOutcome.response ok s => ({ ok := ok, status := s }, [])
  | FetchOutcome.rejected => ({ ok := false, status := 500 }, [])

/-- Outcome shape for `historyList`: the parsed payload is an array of
`n` conversations, a non-array, or the fetch/parse chain rejected. -/
inductive ListOutcome where
  | arrayPayload (n : Nat)
  | nonArrayPayload
  | rejected
deriving DecidableEq, Repr

/-- Transcription of `historyList` (history API module, lines 82-134): a non-array
payload or a rejection yields `null`; no classification, no
telemetry, no retry. -/
def historyList : ListOutcome → Option Nat × List ApiWithRetry.ExecEvent
  | ListOutcome.arrayPayload n => (some n, [])
  | ListOutcome.nonArrayPayload => (none, [])
  | ListOutcome.rejected => (none, [])

end HistoryApi

namespace ProgressiveLoader

/-- Transcription of `LOADING_STAGES` (`ProgressiveLoader.tsx` lines 12-17): message
and `duration` per stage. -/
def LOADING_STAGES : List (String × Nat) :=
  [("Thinking...", 5000),
   ("Still processing...", 7000),
   ("This is taking longer than usual...", 10000),
   ("Almost there, please be patient...", 0)]

/-- The timers the `useEffect` installs on entering the loading state
(`ProgressiveLoader.tsx` lines 35-42): for every stage with positive
`duration`, one `setTimeout` scheduled at call start with delay
`stage.duration` whose callback sets the stage to `index + 1`.
Result: `(delay, targetStage)` pairs. -/
def stageTimers : List (Nat × Nat) :=
  LOADING_STAGES.enum.filterMap
    (fun p => if 0 < p.2.2 then some (p.2.2, p.1 + 1) else none)

/-- The visible stage after advancing a simulated clock to time `t`
(milliseconds from call start) with the call still loading: every
timer whose delay has elapsed has set the stage to its target, in
delay order. -/
def currentStageAt (t : Nat) : Nat :=
  (stageTimers.filter (fun q => decide (q.1 ≤ t))).foldl (fun _ q => q.2) 0

/-- The default `timeoutDuration` prop (`ProgressiveLoader.tsx`
line 22). -/
def defaultTimeoutDuration : Nat := 60000

/-- Whether the hard-timeout callback fires: a timer is installed only
when a callback is supplied and the duration is positive
(`ProgressiveLoader.tsx` lines 45-50), and the cleanup clears it when
the call ends at `tEnd` before the duration elapses. -/
def timeoutFired (hasCallback : Bool) (dur : Nat) (callEnd : Option Nat) : Bool :=
  hasCallback && decide (0 < dur) &&
    (match callEnd with
     | none => true
     | some tEnd => decide (dur ≤ tEnd))

end ProgressiveLoader

namespace QuestionInput

/-- The component state `sendQuestion` consults
(`QuestionInput.tsx`). -/
structure QIState where
  question : String
  base64Image : Option String := none
  documentContent : Option String := none
deriving DecidableEq, Repr

/-- The payload handed to the `onSend` callback. -/
inductive QuestionContent where
  | text (s : String)
  | textWithImage (s img : String)
  | textWithDocument (s doc : String)
deriving DecidableEq, Repr

/-- Transcription of `sendQuestion` (`QuestionInput.tsx` lines 137-174): guard on
`disabled || !question.trim()`, then build the content, invoke
`onSend` (with the conversation id when it is truthy), clear the
attachments, and clear the question if `clearOnSend`. The returned
pair is the new state and the payload passed to `onSend` (`none` when
the callback was not invoked). -/
def sendQuestion (disabled clearOnSend : Bool) (conversationId : Option String)
    (st : QIState) : QIState × Option (QuestionContent × Option String) :=
  if disabled || st.question.trim == "" then (st, none)
  else
    let content :=
      match st.base64Image with
      | some img => QuestionContent.textWithImage st.question img
      | none =>
          match st.documentContent with
          | some d => QuestionContent.textWithDocument st.question d
          | none => QuestionContent.text st.question
    let sentId :=
      match conversationId with
      | some c => if c == "" then none else some c
      | none => none
    let st1 : QIState := { st with base64Image := none, documentContent := none }
    let st2 := if clearOnSend then { st1 with question := "" } else st1
    (st2, some (content, sentId))

/-- A side effect of the variant implementation. -/
inductive VEvent where
  | trackEvent (label : String)
deriving DecidableEq, Repr

/-- State of the variant question input (with `pdfContent` instead of
`documentContent`). -/
structure VState where
  question : String
  base64Image : Option String := none
  pdfContent : Option String := none
deriving DecidableEq, Repr

/-- Payload shape of the variant. -/
inductive VContent where
  | text (s : String)
  | textWithImage (s img : String)
  | textWithPdf (s pdf : String)
deriving DecidableEq, Repr

/-- The variant `sendQuestion` (question-input variant module, lines
95-130): it first fires `appInsights?.trackEvent({name: "Event:
SendQuestion"})` when the telemetry handle is present, and only then
evaluates the same guard. Returns new state, emitted side effects,
and the `onSend` payload. -/
def sendQuestionVariant (hasAppInsights disabled clearOnSend : Bool)
    (conversationId : Option String) (st : VState) :
    VState × List VEvent × Option (VContent × Option String) :=
  let evs := if hasAppInsights then [VEvent.trackEvent ("Event: SendQuestion")] else []
  if disabled || st.question.trim == "" then (st, evs, none)
  else
    let content :=
      match st.base64Image with
      | some img => VContent.textWithImage st.question img
      | none =>
          match st.pdfContent with
          | some p => VContent.textWithPdf st.question p
          | none => VContent.text st.question
    let sentId :=
      match conversationId with
      | some c => if c == "" then none else some c
      | none => none
    let st1 : VState := { st with base64Image := none, pdfContent := none }
    let st2 := if clearOnSend then { st1 with question := "" } else st1
    (st2, evs, some (content, sentId))

/-- Transcription of `onQuestionChange` (`QuestionInput.tsx` lines 183-191): the new
value is stored only when the configured character limit is truthy
and positive, the new value is truthy, and its length is within the
limit; an absent or empty new value clears the question. -/
def onQuestionChange (limit : Option Int) (q : String) (newValue : Option String) : String :=
  let q1 :=
    match limit, newValue with
    | some L, some v =>
        if L != 0 && decide (0 < L) && v != ("") && decide ((v.length : Int) ≤ L) then v else q
    | _, _ => q
  match newValue with
  | none => ""
  | some v => if v == "" then "" else q1

/-- A sequence of input-change events applied from an initial
question. -/
def runChanges (limit : Option Int) (q0 : String) (evs : List (Option String)) : String :=
  evs.foldl (onQuestionChange limit) q0

/-- The invariant of the stored question: empty, or within a
configured positive limit. -/
def QInv (limit : Option Int) (q : String) : Prop :=
  q = "" ∨ ∃ L, limit = some L ∧ 0 < L ∧ (q.length : Int) ≤ L

end QuestionInput

/-! ## Theorems -/

/-- The source classifier agrees with the spec's ordered-rule-list
presentation of the category derivation, over the message. -/
theorem categorizeError_eq_specCategorizeMsg (msg : String) :
    Telemetry.categorizeError msg = Telemetry.specCategorizeMsg msg := by
  unfold Telemetry.categorizeError Telemetry.specCategorizeMsg Telemetry.specRules
  simp only [List.find?, List.any_cons, List.any_nil, Bool.or_false]
  cases h1 : includes (lowerStr msg) ("network") || includes (lowerStr msg) ("fetch") <;>
  cases h2 : includes (lowerStr msg) ("timeout") || includes (lowerStr msg) ("aborted") <;>
  cases h3 : includes (lowerStr msg) ("unauthorized") || includes (lowerStr msg) ("forbidden") <;>
  cases h4 : includes (lowerStr msg) ("stream") || includes (lowerStr msg) ("reader") <;>
  cases h5 : includes (lowerStr msg) ("api") || includes (lowerStr msg) ("server") <;>
  simp [h1, h2, h3, h4, h5]

/-- The `retryAfter` values `isRetryableError` can produce. -/
theorem retryAfter_cases (msg : String) :
    (Telemetry.isRetryableError msg).retryAfter = none ∨
    (Telemetry.isRetryableError msg).retryAfter = some 1000 ∨
    (Telemetry.isRetryableError msg).retryAfter = some 2000 ∨
    (Telemetry.isRetryableError msg).retryAfter = some 500 := by
  cases h : Telemetry.categorizeError msg <;>
  simp only [Telemetry.isRetryableError, h] <;>
  first
  | (split <;> simp)
  | simp

/-- One input-change event preserves the question-length invariant. -/
theorem qinv_step (limit : Option Int) (q : String) (ev : Option String)
    (h : QuestionInput.QInv limit q) :
    QuestionInput.QInv limit (QuestionInput.onQuestionChange limit q ev) := by
  unfold QuestionInput.onQuestionChange
  cases ev with
  | none => exact Or.inl rfl
  | some v =>
      by_cases hv : v = ""
      · subst hv
        exact Or.inl rfl
      · simp only [beq_iff_eq, hv, if_false]
        cases limit with
        | none => exact h
        | some L =>
            by_cases hc :
                (L != 0 && decide (0 < L) && v != ("") && decide ((v.length : Int) ≤ L)) = true
            · simp only [hc, if_true]
              simp only [Bool.and_eq_true, bne_iff_ne, decide_eq_true_eq] at hc
              exact Or.inr ⟨L, rfl, hc.1.1.2, hc.2⟩
            · simp only [eq_self_iff_true] at hc
              simp only [Bool.not_eq_true] at hc
              simp only [hc, if_false]
              exact h

/-- Any sequence of input-change events preserves the invariant. -/
theorem runChanges_inv (limit : Option Int) (evs : List (Option String)) (q : String)
    (h : QuestionInput.QInv limit q) :
    QuestionInput.QInv limit (QuestionInput.runChanges limit q evs) := by
  induction evs generalizing q with
  | nil => exact h
  | cons e rest ih => exact ih _ (qinv_step limit q e h)

/-- Claim C1 (amended): entering the loading state installs the three
stage timers at call start, with delays 5000 ms (to Stage1), 7000 ms
(to Stage2) and 10000 ms (to Stage3) — each timer's delay is the
stage's own `duration` field measured from call start, not a
cumulative 5000/12000/22000 schedule — and the hard-timeout signal is
scheduled at +60000 ms by default; ending the call before the timeout
duration prevents the callback from firing. -/
theorem progressiveLoader_stage_schedule (tEnd : Nat)
    (h : tEnd < ProgressiveLoader.defaultTimeoutDuration) :
    ProgressiveLoader.stageTimers = [(5000, 1), (7000, 2), (10000, 3)] ∧
    ProgressiveLoader.currentStageAt 0 = 0 ∧
    ProgressiveLoader.currentStageAt 4999 = 0 ∧
    ProgressiveLoader.currentStageAt 5000 = 1 ∧
    ProgressiveLoader.currentStageAt 6999 = 1 ∧
    ProgressiveLoader.currentStageAt 7000 = 2 ∧
    ProgressiveLoader.currentStageAt 9999 = 2 ∧
    ProgressiveLoader.currentStageAt 10000 = 3 ∧
    ProgressiveLoader.defaultTimeoutDuration = 60000 ∧
    ProgressiveLoader.timeoutFired true ProgressiveLoader.defaultTimeoutDuration (some tEnd)
      = false := by
  simp only [ProgressiveLoader.defaultTimeoutDuration] at h
  refine ⟨by decide, by decide, by decide, by decide, by decide, by decide, by decide,
    by decide, rfl, ?_⟩
  simp only [ProgressiveLoader.timeoutFired, ProgressiveLoader.defaultTimeoutDuration,
    Bool.true_and, Bool.and_eq_false_iff, decide_eq_false_iff_not, not_le]
  right
  omega

/-- Claim C1 (amended), witness: the call ends at 59999 ms, before
the 60000 ms default timeout. -/
theorem progressiveLoader_stage_schedule_witness :
    59999 < ProgressiveLoader.defaultTimeoutDuration ∧
    (ProgressiveLoader.stageTimers = [(5000, 1), (7000, 2), (10000, 3)] ∧
     ProgressiveLoader.currentStageAt 0 = 0 ∧
     ProgressiveLoader.currentStageAt 4999 = 0 ∧
     ProgressiveLoader.currentStageAt 5000 = 1 ∧
     ProgressiveLoader.currentStageAt 6999 = 1 ∧
     ProgressiveLoader.currentStageAt 7000 = 2 ∧
     ProgressiveLoader.currentStageAt 9999 = 2 ∧
     ProgressiveLoader.currentStageAt 10000 = 3 ∧
     ProgressiveLoader.defaultTimeoutDuration = 60000 ∧
     ProgressiveLoader.timeoutFired true ProgressiveLoader.defaultTimeoutDuration (some 59999)
       = false) :=
  ⟨by decide, progressiveLoader_stage_schedule 59999 (by decide)⟩

/-- Claim C1, counterexample: at 12000 ms from call start the visible
stage is already Stage3, not Stage2 as the claimed cumulative
5000/12000/22000 schedule would require. -/
theorem progressiveLoader_no_cumulative_schedule :
    ProgressiveLoader.currentStageAt 12000 = 3 ∧
    ProgressiveLoader.currentStageAt 12000 ≠ 2 := by
  constructor
  · decide
  · decide

/-- Claim C2 (code-bug evaluation): when the per-attempt timeout
elapses, `fetchWithTimeout` synthesizes a `TimeoutError` whose
message says timed out, which contains neither the substring timeout
nor aborted, so `categorizeError` files it under `unknown` — a
non-retryable category — instead of `timeout`; the connectivity-loss
half of the claim does hold, since the synthesized `NetworkError`
message contains network. -/
theorem timeoutError_misclassified :
    ApiWithRetry.fetchWithTimeoutMap ("/conversation") 30000
        { name := ("AbortError"), message := ("The operation was aborted"), isTypeError := false }
      = { name := ("TimeoutError"),
          message := ("Request to /conversation timed out after 30000ms"), status := none } ∧
    Telemetry.categorizeError ("Request to /conversation timed out after 30000ms")
      = Telemetry.Category.unknown ∧
    (Telemetry.isRetryableError ("Request to /conversation timed out after 30000ms")).isRetryable
      = false ∧
    ApiWithRetry.fetchWithTimeoutMap ("/conversation") 30000
        { name := ("TypeError"), message := ("Failed to fetch"), isTypeError := true }
      = { name := ("NetworkError"),
          message := ("Network error when requesting /conversation"), status := none } ∧
    Telemetry.categorizeError ("Network error when requesting /conversation")
      = Telemetry.Category.network := by
  refine ⟨by decide, by decide, by decide, by decide, by decide⟩

/-- Claim C3, counterexample: an error whose name is NetworkError but
whose message mentions none of the patterns is classified `unknown`
by the source, while a derivation that consults the message/name as
the claim states would yield `network`: the source consults the
message only. -/
theorem classifier_ignores_name :
    ¬ (Telemetry.categorizeError ("zzz")
        = Telemetry.specCategorizeMsgName ("zzz") ("NetworkError")) := by
  decide

/-- Claim C3 (amended): classify is total and derives the category by
case-insensitive substring match on the error's message only, with
first-match-wins priority — network/fetch, timeout/aborted,
unauthorized/forbidden, stream/reader, api/server, else unknown — and
the severity is the fixed total function of that category:
auth critical, api high, timeout medium, streaming medium, network
low, unknown medium, independent of the specific error instance. -/
theorem classifier_contract (msg : String) :
    Telemetry.categorizeError msg = Telemetry.specCategorizeMsg msg ∧
    Telemetry.categorizeErrorSeverity msg
      = Telemetry.severityTable (Telemetry.categorizeError msg) := by
  refine ⟨categorizeError_eq_specCategorizeMsg msg, ?_⟩
  unfold Telemetry.categorizeErrorSeverity Telemetry.severityTable
  cases h : Telemetry.categorizeError msg <;> simp [h]

/-- Claim C4, counterexample: for the api-category failure with
status 501 (message HTTP 501: Server Error), the claimed rule —
retryable exactly when the status is a server error (at least 500) or
408 or 429 — fails: 501 is a server error but `isRetryableError`
declines it, because the source tests the message for the substrings
500, 502, 503 rather than the status. -/
theorem api_retry_rule_counterexample :
    ¬ (Telemetry.categorizeError (ApiWithRetry.apiErrorMessage 501 ("Server Error"))
          = Telemetry.Category.api →
        ((Telemetry.isRetryableError
            (ApiWithRetry.apiErrorMessage 501 ("Server Error"))).isRetryable = true
          ↔ (500 ≤ 501 ∨ 501 = 408 ∨ 501 = 429))) := by
  decide

/-- Claim C4 (amended): for an api-category failure,
`isRetryableError` is retryable exactly when the lowercased message
contains 500, 502 or 503; when retryable it carries maxRetries 2 and
suggested delay 2000 ms, independent of the attempt count; the
executor's own attempt bound is `options.maxRetries` (default 3), not
the decision's maxRetries 2, so with defaults a 503 api failure is
retried at attempt 0 and also still at attempt 2. -/
theorem api_retry_decision (msg : String)
    (h : Telemetry.categorizeError msg = Telemetry.Category.api) :
    ((Telemetry.isRetryableError msg).isRetryable = true ↔
      (includes (lowerStr msg) ("500") || includes (lowerStr msg) ("502")
        || includes (lowerStr msg) ("503")) = true) ∧
    ((Telemetry.isRetryableError msg).isRetryable = true →
      Telemetry.isRetryableError msg
        = { isRetryable := true, retryAfter := some 2000, maxRetries := some 2 }) ∧
    ApiWithRetry.catchRetryCond (ApiWithRetry.apiErrorMessage 503 ("Server Error")) 0
      ApiWithRetry.defaultRetryOptions = true ∧
    ApiWithRetry.catchRetryCond (ApiWithRetry.apiErrorMessage 503 ("Server Error")) 2
      ApiWithRetry.defaultRetryOptions = true := by
  refine ⟨?_, ?_, by decide, by decide⟩
  · simp only [Telemetry.isRetryableError, h]
    split <;> simp_all
  · simp only [Telemetry.isRetryableError, h]
    split <;> simp_all

/-- Claim C4 (amended), witness: the api-category failure HTTP 503:
Server Error. -/
theorem api_retry_decision_witness :
    Telemetry.categorizeError (ApiWithRetry.apiErrorMessage 503 ("Server Error"))
      = Telemetry.Category.api ∧
    (((Telemetry.isRetryableError
          (ApiWithRetry.apiErrorMessage 503 ("Server Error"))).isRetryable = true ↔
        (includes (lowerStr (ApiWithRetry.apiErrorMessage 503 ("Server Error"))) ("500")
          || includes (lowerStr (ApiWithRetry.apiErrorMessage 503 ("Server Error"))) ("502")
          || includes (lowerStr (ApiWithRetry.apiErrorMessage 503 ("Server Error"))) ("503"))
          = true) ∧
      ((Telemetry.isRetryableError
          (ApiWithRetry.apiErrorMessage 503 ("Server Error"))).isRetryable = true →
        Telemetry.isRetryableError (ApiWithRetry.apiErrorMessage 503 ("Server Error"))
          = { isRetryable := true, retryAfter := some 2000, maxRetries := some 2 }) ∧
      ApiWithRetry.catchRetryCond (ApiWithRetry.apiErrorMessage 503 ("Server Error")) 0
        ApiWithRetry.defaultRetryOptions = true ∧
      ApiWithRetry.catchRetryCond (ApiWithRetry.apiErrorMessage 503 ("Server Error")) 2
        ApiWithRetry.defaultRetryOptions = true) :=
  ⟨by decide, api_retry_decision (ApiWithRetry.apiErrorMessage 503 ("Server Error")) (by decide)⟩

/-- Claim C5: for an auth-category failure, `isRetryableError` is
non-retryable, and the executor's retry condition is false at every
attempt count and under every options record, so an auth failure is
surfaced immediately with zero retries. -/
theorem auth_never_retryable (msg : String)
    (h : Telemetry.categorizeError msg = Telemetry.Category.auth) :
    (Telemetry.isRetryableError msg).isRetryable = false ∧
    ∀ (attempt : Nat) (o : ApiWithRetry.RetryOptions),
      ApiWithRetry.catchRetryCond msg attempt o = false := by
  constructor
  · simp [Telemetry.isRetryableError, h]
  · intro attempt o
    simp [ApiWithRetry.catchRetryCond, Telemetry.isRetryableError, h]

/-- Claim C5, witness: the message Unauthorized. -/
theorem auth_never_retryable_witness :
    Telemetry.categorizeError ("Unauthorized") = Telemetry.Category.auth ∧
    ((Telemetry.isRetryableError ("Unauthorized")).isRetryable = false ∧
     ∀ (attempt : Nat) (o : ApiWithRetry.RetryOptions),
       ApiWithRetry.catchRetryCond ("Unauthorized") attempt o = false) :=
  ⟨by decide, auth_never_retryable ("Unauthorized") (by decide)⟩

/-- Claim C6: the backoff delay equals
min(baseDelay * backoffFactor ^ attempt, maxDelay); with the defaults
it is 1000, 2000, 4000, 8000 for attempts 0-3 and clamps to 10000
from attempt 4; and in the executor's delay selection an explicit
`retryAfter` supplied by the retry policy takes precedence over the
backoff value, while its absence falls back to the backoff value. -/
theorem retry_delay_policy (msg : String) (attempt : Nat) (o : ApiWithRetry.RetryOptions) :
    (∀ r, (Telemetry.isRetryableError msg).retryAfter = some r →
        ApiWithRetry.jsOrDelay (Telemetry.isRetryableError msg).retryAfter attempt o = r) ∧
    ((Telemetry.isRetryableError msg).retryAfter = none →
        ApiWithRetry.jsOrDelay (Telemetry.isRetryableError msg).retryAfter attempt o
          = ApiWithRetry.calculateDelay attempt o) ∧
    ApiWithRetry.calculateDelay attempt o
      = min (o.baseDelay * o.backoffFactor ^ attempt) o.maxDelay ∧
    ApiWithRetry.calculateDelay 0 ApiWithRetry.defaultRetryOptions = 1000 ∧
    ApiWithRetry.calculateDelay 1 ApiWithRetry.defaultRetryOptions = 2000 ∧
    ApiWithRetry.calculateDelay 2 ApiWithRetry.defaultRetryOptions = 4000 ∧
    ApiWithRetry.calculateDelay 3 ApiWithRetry.defaultRetryOptions = 8000 ∧
    ApiWithRetry.calculateDelay 4 ApiWithRetry.defaultRetryOptions = 10000 := by
  refine ⟨?_, ?_, rfl, by decide, by decide, by decide, by decide, by decide⟩
  · intro r hr
    rcases retryAfter_cases msg with hc | hc | hc | hc <;> rw [hc] at hr
    · cases hr
    · injection hr with hr2
      subst hr2
      rw [hc]
      rfl
    · injection hr with hr2
      subst hr2
      rw [hc]
      rfl
    · injection hr with hr2
      subst hr2
      rw [hc]
      rfl
  · intro hn
    rw [hn]
    rfl

/-- Claim C6, witness: a network-classified failure at attempt 0 with
the default options, whose policy-supplied 1000 ms takes precedence. -/
theorem retry_delay_policy_witness :
    (Telemetry.isRetryableError ("network error")).retryAfter = some 1000 ∧
    ApiWithRetry.jsOrDelay (Telemetry.isRetryableError ("network error")).retryAfter 0
      ApiWithRetry.defaultRetryOptions = 1000 :=
  ⟨by decide,
   (retry_delay_policy ("network error") 0 ApiWithRetry.defaultRetryOptions).1 1000 (by decide)⟩

/-- Claim C7, counterexample: one occurrence of a non-retried failure
(HTTP 400) run through the executor produces two telemetry reports —
the non-2xx branch reports it, then throws it into the catch of the
same try, which reports it again — not exactly one; no retry delay is
waited, so the run contains a single failure occurrence. -/
theorem double_report_counterexample :
    ApiWithRetry.reportCount
        (ApiWithRetry.ApiFetch ("/conversation") ApiWithRetry.defaultRetryOptions
          ApiWithRetry.oracle400).1 = 2 ∧
    ApiWithRetry.waitCount
        (ApiWithRetry.ApiFetch ("/conversation") ApiWithRetry.defaultRetryOptions
          ApiWithRetry.oracle400).1 = 0 ∧
    (ApiWithRetry.ApiFetch ("/conversation") ApiWithRetry.defaultRetryOptions
        ApiWithRetry.oracle400).2
      = Except.error
          { name := ("ApiError"), message := ("HTTP 400: Bad Request"), status := some 400 } :=
  ⟨by decide, by decide, rfl⟩

/-- Claim C7 (amended): every failure occurring inside the executor
is reported to telemetry at least once, and the first event of the
failing iteration is the telemetry report, so the report precedes the
retry/surface decision; a non-2xx response that the status-based
retry check declines is reported twice for the same occurrence (and
those are the only double reports); a failure of the telemetry report
itself is swallowed inside `reportError` and never affects control
flow. -/
theorem telemetry_report_discipline (url : String) (o : ApiWithRetry.RetryOptions)
    (attempt : Nat) (r : ApiWithRetry.AttemptResult) (h : r.isFailure = true) :
    1 ≤ ApiWithRetry.reportCount (ApiWithRetry.fetchStep url o attempt r).1 ∧
    (∃ m, ((ApiWithRetry.fetchStep url o attempt r).1).head?
        = some (ApiWithRetry.ExecEvent.telemetryReport m)) ∧
    (ApiWithRetry.reportCount (ApiWithRetry.fetchStep url o attempt r).1 = 2 ↔
      ∃ s st, r = ApiWithRetry.AttemptResult.httpError s st ∧
        ApiWithRetry.shouldRetry s attempt o.maxRetries = false) ∧
    (∀ b : Bool, Telemetry.reportError b = Except.ok ()) := by
  cases r with
  | success s => simp [ApiWithRetry.AttemptResult.isFailure] at h
  | httpError s st =>
      cases hsr : ApiWithRetry.shouldRetry s attempt o.maxRetries with
      | true =>
          refine ⟨?_, ?_, ?_, fun b => by cases b <;> rfl⟩
          · simp [ApiWithRetry.fetchStep, hsr, ApiWithRetry.reportCount, ApiWithRetry.isReport]
          · exact ⟨ApiWithRetry.apiErrorMessage s st, by simp [ApiWithRetry.fetchStep, hsr]⟩
          · constructor
            · intro hcount
              simp [ApiWithRetry.fetchStep, hsr, ApiWithRetry.reportCount,
                ApiWithRetry.isReport] at hcount
            · rintro ⟨s2, st2, heq, hf⟩
              injection heq with hs2 hst2
              subst hs2
              subst hst2
              rw [hsr] at hf
              cases hf
      | false =>
          cases hcc : (Telemetry.isRetryableError (ApiWithRetry.apiErrorMessage s st)).isRetryable
              && decide (attempt < o.maxRetries) with
          | true =>
              refine ⟨?_, ?_, ?_, fun b => by cases b <;> rfl⟩
              · simp [ApiWithRetry.fetchStep, hsr, hcc, ApiWithRetry.reportCount,
                  ApiWithRetry.isReport]
              · exact ⟨ApiWithRetry.apiErrorMessage s st,
                  by simp [ApiWithRetry.fetchStep, hsr, hcc]⟩
              · constructor
                · intro _
                  exact ⟨s, st, rfl, hsr⟩
                · intro _
                  simp [ApiWithRetry.fetchStep, hsr, hcc, ApiWithRetry.reportCount,
                    ApiWithRetry.isReport]
          | false =>
              refine ⟨?_, ?_, ?_, fun b => by cases b <;> rfl⟩
              · simp [ApiWithRetry.fetchStep, hsr, hcc, ApiWithRetry.reportCount,
                  ApiWithRetry.isReport]
              · exact ⟨ApiWithRetry.apiErrorMessage s st,
                  by simp [ApiWithRetry.fetchStep, hsr, hcc]⟩
              · constructor
                · intro _
                  exact ⟨s, st, rfl, hsr⟩
                · intro _
                  simp [ApiWithRetry.fetchStep, hsr, hcc, ApiWithRetry.reportCount,
                    ApiWithRetry.isReport]
  | raised e =>
      cases hcc : (Telemetry.isRetryableError
            (ApiWithRetry.fetchWithTimeoutMap url o.timeoutMs e).message).isRetryable
          && decide (attempt < o.maxRetries) with
      | true =>
          refine ⟨?_, ?_, ?_, fun b => by cases b <;> rfl⟩
          · simp [ApiWithRetry.fetchStep, hcc, ApiWithRetry.reportCount, ApiWithRetry.isReport]
          · exact ⟨(ApiWithRetry.fetchWithTimeoutMap url o.timeoutMs e).message,
              by simp [ApiWithRetry.fetchStep, hcc]⟩
          · constructor
            · intro hcount
              simp [ApiWithRetry.fetchStep, hcc, ApiWithRetry.reportCount,
                ApiWithRetry.isReport] at hcount
            · rintro ⟨s2, st2, heq, -⟩
              cases heq
      | false =>
          refine ⟨?_, ?_, ?_, fun b => by cases b <;> rfl⟩
          · simp [ApiWithRetry.fetchStep, hcc, ApiWithRetry.reportCount, ApiWithRetry.isReport]
          · exact ⟨(ApiWithRetry.fetchWithTimeoutMap url o.timeoutMs e).message,
              by simp [ApiWithRetry.fetchStep, hcc]⟩
          · constructor
            · intro hcount
              simp [ApiWithRetry.fetchStep, hcc, ApiWithRetry.reportCount,
                ApiWithRetry.isReport] at hcount
            · rintro ⟨s2, st2, heq, -⟩
              cases heq

/-- Claim C7 (amended), witness: a non-retried HTTP 400 failure at
attempt 0 with the default options. -/
theorem telemetry_report_discipline_witness :
    (ApiWithRetry.AttemptResult.httpError 400 ("Bad Request")).isFailure = true ∧
    (1 ≤ ApiWithRetry.reportCount
        (ApiWithRetry.fetchStep ("/conversation") ApiWithRetry.defaultRetryOptions 0
          (ApiWithRetry.AttemptResult.httpError 400 ("Bad Request"))).1 ∧
     (∃ m, ((ApiWithRetry.fetchStep ("/conversation") ApiWithRetry.defaultRetryOptions 0
          (ApiWithRetry.AttemptResult.httpError 400 ("Bad Request"))).1).head?
        = some (ApiWithRetry.ExecEvent.telemetryReport m)) ∧
     (ApiWithRetry.reportCount
        (ApiWithRetry.fetchStep ("/conversation") ApiWithRetry.defaultRetryOptions 0
          (ApiWithRetry.AttemptResult.httpError 400 ("Bad Request"))).1 = 2 ↔
       ∃ s st, ApiWithRetry.AttemptResult.httpError 400 ("Bad Request")
           = ApiWithRetry.AttemptResult.httpError s st ∧
         ApiWithRetry.shouldRetry s 0 ApiWithRetry.defaultRetryOptions.maxRetries = false) ∧
     (∀ b : Bool, Telemetry.reportError b = Except.ok ())) :=
  ⟨rfl, telemetry_report_discipline ("/conversation") ApiWithRetry.defaultRetryOptions 0
    (ApiWithRetry.AttemptResult.httpError 400 ("Bad Request")) rfl⟩

/-- Claim C8, counterexample: `historyUpdate` on a 503 response
surfaces the raw non-2xx response with no telemetry report and no
retry, while the chat-endpoint executor on the same failure reports
it to telemetry — the history operations do not map non-2xx into the
ClassifiedError taxonomy identically to the chat endpoints. -/
theorem history_not_like_chat_counterexample :
    (HistoryApi.historyUpdate (HistoryApi.FetchOutcome.response false 503)).2 = [] ∧
    (HistoryApi.historyUpdate (HistoryApi.FetchOutcome.response false 503)).1
      = { ok := false, status := 503 } ∧
    1 ≤ ApiWithRetry.reportCount
        (ApiWithRetry.fetchStep ("/history/update") ApiWithRetry.defaultRetryOptions 0
          (ApiWithRetry.AttemptResult.httpError 503 ("Service Unavailable"))).1 :=
  ⟨rfl, rfl, by decide⟩

/-- Claim C8 (amended): the conversation-history operations perform a
single direct fetch with no ClassifiedError mapping, no telemetry
report and no retry: a response is returned to the caller unchanged
(2xx or not), a rejected fetch yields a synthesized status-500
response for `historyUpdate`, and `historyList` yields null on a
non-array payload or rejection, likewise without any resilience
events. -/
theorem history_plain_fetch (o : HistoryApi.FetchOutcome) :
    (HistoryApi.historyUpdate o).2 = [] ∧
    (∀ ok s, o = HistoryApi.FetchOutcome.response ok s →
      (HistoryApi.historyUpdate o).1 = { ok := ok, status := s }) ∧
    (o = HistoryApi.FetchOutcome.rejected →
      (HistoryApi.historyUpdate o).1 = { ok := false, status := 500 }) ∧
    (∀ lo : HistoryApi.ListOutcome, (HistoryApi.historyList lo).2 = []) := by
  refine ⟨?_, ?_, ?_, ?_⟩
  · cases o <;> rfl
  · rintro ok s rfl
    rfl
  · rintro rfl
    rfl
  · intro lo
    cases lo <;> rfl

/-- Claim C8 (amended), witness: a 503 response through
`historyUpdate`. -/
theorem history_plain_fetch_witness :
    (HistoryApi.historyUpdate (HistoryApi.FetchOutcome.response false 503)).1
      = { ok := false, status := 503 } :=
  (history_plain_fetch (HistoryApi.FetchOutcome.response false 503)).2.1 false 503 rfl

/-- Claim C9, counterexample: in the variant implementation, a
submission made while the input is disabled still emits the analytics
tracking event before the guard runs — a side effect — even though
the send callback is not invoked. -/
theorem variant_guard_side_effect :
    (QuestionInput.sendQuestionVariant true true false none
        { question := ("hello") }).2.1
      = [QuestionInput.VEvent.trackEvent ("Event: SendQuestion")] ∧
    (QuestionInput.sendQuestionVariant true true false none
        { question := ("hello") }).2.2 = none ∧
    [QuestionInput.VEvent.trackEvent ("Event: SendQuestion")]
      ≠ ([] : List QuestionInput.VEvent) :=
  ⟨by decide, by decide, by decide⟩

/-- Claim C9 (amended): a submission with empty or whitespace-only
content, or made while the input is disabled because a prior call is
outstanding, is rejected: the send callback is not invoked and the
state is unchanged in both implementations, and no side effect is
performed except that the variant implementation emits its analytics
tracking event before evaluating the guard. -/
theorem send_guard (disabled clearOnSend hasAI : Bool) (cid : Option String)
    (st : QuestionInput.QIState) (vst : QuestionInput.VState)
    (h : disabled = true ∨ st.question.trim = "")
    (hv : disabled = true ∨ vst.question.trim = "") :
    QuestionInput.sendQuestion disabled clearOnSend cid st = (st, none) ∧
    QuestionInput.sendQuestionVariant hasAI disabled clearOnSend cid vst
      = (vst, (if hasAI then [QuestionInput.VEvent.trackEvent ("Event: SendQuestion")] else []),
          none) := by
  constructor
  · unfold QuestionInput.sendQuestion
    rcases h with h | h <;> simp [h]
  · unfold QuestionInput.sendQuestionVariant
    rcases hv with hv | hv <;> simp [hv]

/-- Claim C9 (amended), witness: a disabled input with pending text in
both implementations. -/
theorem send_guard_witness :
    ((true : Bool) = true ∨ (("hi" : String)).trim = "") ∧
    (QuestionInput.sendQuestion true false none { question := ("hi") }
        = ({ question := ("hi") }, none) ∧
     QuestionInput.sendQuestionVariant true true false none { question := ("hi") }
        = ({ question := ("hi") },
           (if (true : Bool) then [QuestionInput.VEvent.trackEvent ("Event: SendQuestion")]
            else []),
           none)) :=
  ⟨Or.inl rfl,
   send_guard true false true none { question := ("hi") } { question := ("hi") }
     (Or.inl rfl) (Or.inl rfl)⟩

/-- Claim C10: after any sequence of input-change events starting
from the empty question, the stored question is either empty or has
length at most the configured positive character limit; a change
event carrying truthy text longer than the limit leaves the stored
question unchanged; and (by the first part) a non-empty question is
only ever stored when a positive limit is configured. -/
theorem input_limit_invariant (limit : Option Int) (evs : List (Option String)) :
    (QuestionInput.runChanges limit ("") evs = "" ∨
      ∃ L, limit = some L ∧ 0 < L ∧
        ((QuestionInput.runChanges limit ("") evs).length : Int) ≤ L) ∧
    (∀ (q v : String) (L : Int), limit = some L → v ≠ "" → L < (v.length : Int) →
      QuestionInput.onQuestionChange limit q (some v) = q) := by
  constructor
  · exact runChanges_inv limit evs ("") (Or.inl rfl)
  · intro q v L hL hv hlen
    subst hL
    have hd : decide ((v.length : Int) ≤ L) = false := decide_eq_false (by omega)
    unfold QuestionInput.onQuestionChange
    simp [hv, hd]

/-- Claim C10, witness: limit 5, one in-range event, and an
over-limit event left ignored. -/
theorem input_limit_invariant_witness :
    QuestionInput.onQuestionChange (some 5) ("abc") (some ("abcdefgh")) = "abc" :=
  (input_limit_invariant (some 5) []).2 ("abc") ("abcdefgh") 5 rfl (by decide) (by decide)

end Spec2Proof
